import Mathlib

/-!
Verification of the boot-time sequencer in `boot.py` (Raspberry Pi Pico W
startup script): configuration loading, WiFi link bring-up, NTP time fetch,
RTC programming, timezone-offset adjustment and clock-frequency override.

The script's top-level flow and its helper functions are shallowly embedded
below.  External capabilities (the `network`, `socket`, `machine` and `time`
MicroPython modules) are modelled as explicit oracles/environments; the civil
calendar conversion performed by `time.gmtime` and read back through the RTC
is modelled from the spec as a proleptic-Gregorian breakdown of Unix-epoch
seconds.
-/

/-- Decoded contents of `/boot.json` (lines 35-47 of `boot.py`): a JSON
mapping with the documented keys, each optional.  The field `set_rtp` is kept
because line 331 of the source subscripts that (differently spelled) key.
Values are modelled at their documented types. -/
structure BootInfo where
  ssid : Option String := none
  key : Option String := none
  hostname : Option (List Char) := none
  utc_time_offset : Option Int := none
  set_rtc : Option Bool := none
  set_rtp : Option Bool := none
  freq : Option Nat := none
  silent : Option Bool := none
  flash_led : Option Bool := none
  start_delay_seconds : Option Nat := none
  debug : Option Bool := none
deriving DecidableEq

/-- The module-level flags of `boot.py` that the `boot.json` processing
assigns (`FLASH_LED`, `SET_RTC`, `SILENT`, `start_delay_seconds`, `DEBUG`). -/
structure BootFlags where
  flash_led : Bool
  set_rtc : Bool
  silent : Bool
  start_delay : Nat
  debug : Bool
deriving DecidableEq

/-- Defaults from lines 120-125 and 323 of `boot.py`: `SET_RTC = True`,
`SILENT = False`, `FLASH_LED = False`, `start_delay_seconds = 0`, and
`DEBUG` true exactly when a `/DEBUG` file is present. -/
def defaultFlags (debugFile : Bool) : BootFlags :=
  { flash_led := false, set_rtc := true, silent := false, start_delay := 0,
    debug := debugFile }

/-- Key processing after the `set_rtc` step (lines 332-338): `silent`, then
`start_delay_seconds`, then `debug` (which ors into `DEBUG` and forces
`SILENT = False`).  Second component: whether processing completed. -/
def processAfterRtc (s : BootFlags) (m : BootInfo) : BootFlags × Bool :=
  let s2 := match m.silent with
    | some v => { s with silent := v }
    | none => s
  let s3 := match m.start_delay_seconds with
    | some v => { s2 with start_delay := v }
    | none => s2
  let s4 := match m.debug with
    | some v => { s3 with debug := s3.debug || v, silent := false }
    | none => s3
  (s4, true)

/-- The `boot.json` key processing of lines 328-338, in source order:
`flash_led`, then `set_rtc` — which, as on line 331, subscripts the key
`"set_rtp"` and hence raises `KeyError` (second component `false`, state as
reached so far) when that key is absent — then the remaining keys. -/
def processBootInfo (s0 : BootFlags) (m : BootInfo) : BootFlags × Bool :=
  let s1 := match m.flash_led with
    | some v => { s0 with flash_led := v }
    | none => s0
  match m.set_rtc with
  | some _ =>
    match m.set_rtp with
    | none => (s1, false)
    | some v => processAfterRtc { s1 with set_rtc := v } m
  | none => processAfterRtc s1 m

/-- Lines 322-349: start from the defaults; `cfg = none` models a missing or
syntactically invalid `/boot.json` (the `except` branch fires immediately,
flags keep their defaults).  Second component: `false` when the `except`
branch printed the invalid-file report. -/
def loadBootInfo (debugFile : Bool) (cfg : Option BootInfo) : BootFlags × Bool :=
  match cfg with
  | none => (defaultFlags debugFile, false)
  | some m => processBootInfo (defaultFlags debugFile) m

/-! ## NTP client (`try_to_get_UTC_in_UNIX_seconds`, lines 184-231) -/

/-- Seconds between the NTP epoch (1900-01-01) and the Unix epoch
(1970-01-01), line 143 of `boot.py`. -/
def SECONDS_BETWEEN_NTP_AND_UNIX_EPOCHS : Nat := 2208988800

/-- The 32-bit big-endian word at word index `i` of a byte sequence, as
produced by Python's `struct.unpack` format `!12I` (missing bytes read 0). -/
def word32At (resp : List Nat) (i : Nat) : Nat :=
  resp.getD (4 * i) 0 * 16777216 + resp.getD (4 * i + 1) 0 * 65536 +
    resp.getD (4 * i + 2) 0 * 256 + resp.getD (4 * i + 3) 0

/-- Lines 203-225: handling of one received datagram.  An empty response
fails the `if response:` truthiness test and the attempt yields nothing; a
non-48-byte response makes `struct.unpack` with format `!12I` raise (caught
by the per-server handler); a 48-byte response decodes to
`reply[10] - 2208988800`. -/
def decodeNtpResponse (resp : List Nat) : Option Int :=
  if resp.length = 0 then none
  else if resp.length = 48 then
    some ((word32At resp 10 : Int) - (SECONDS_BETWEEN_NTP_AND_UNIX_EPOCHS : Int))
  else none

/-- One server attempt (lines 200-229): the oracle value `none` stands for a
resolution/send/receive failure (any raised exception, swallowed by the
`except` clause); `some resp` for a received datagram, which then goes
through `decodeNtpResponse`. -/
def attemptNtpServer (r : Option (List Nat)) : Option Int :=
  match r with
  | none => none
  | some resp => decodeNtpResponse resp

/-- Line 134-138: the fixed, ordered server list. -/
def TIME_SERVERS : List String :=
  ["time.nist.gov", "pool.ntp.org", "time.google.com", "time.windows.com"]

/-- The server loop of lines 199-231: iterate the list in order; a failed
attempt is swallowed and the next server is tried; the first successful
decode returns immediately; if every server fails, a `RuntimeError` is
raised (modelled as `Except.error ()`).  The second component instruments
which servers were actually contacted, in order. -/
def fetchUtcList (env : String → Option (List Nat)) :
    List String → Except Unit Int × List String
  | [] => (Except.error (), [])
  | s :: rest =>
    match attemptNtpServer (env s) with
    | some t => (Except.ok t, [s])
    | none =>
      let r := fetchUtcList env rest
      (r.1, s :: r.2)

/-- `try_to_get_UTC_in_UNIX_seconds` (lines 184-231) over the fixed list. -/
def try_to_get_UTC_in_UNIX_seconds (env : String → Option (List Nat)) :
    Except Unit Int :=
  (fetchUtcList env TIME_SERVERS).1

/-! ## WiFi link bring-up (`connect_using_DHCP`, lines 263-314) -/

/-- Actions performed by `connect_using_DHCP` on the wireless interface and
the sleep primitive. -/
inductive WEv where
  | activate
  | connectCall
  | sleep1
  | statusPoll (i : Nat)
  | deactivate
deriving DecidableEq

/-- The inner poll loop of lines 284-299: `for i in range(10)`, sleeping one
second before every poll except the first; a poll succeeds when
`wlan.isconnected()` holds and `wlan.status() == 3`.  `f i` gives the driver
answer `(isconnected, status)` at poll `i`; the result records the trace of
actions and the succeeding poll index, if any. -/
def pollLoop (f : Nat → Bool × Nat) : Nat → Nat → List WEv × Option Nat
  | _, 0 => ([], none)
  | i, fuel + 1 =>
    let evs := (if 0 < i then [WEv.sleep1] else []) ++ [WEv.statusPoll i]
    if (f i).1 = true ∧ (f i).2 = 3 then (evs, some i)
    else
      let r := pollLoop f (i + 1) fuel
      (evs ++ r.1, r.2)

/-- `DEFAULT_CONNECT_RETRIES` (line 131). -/
def DEFAULT_CONNECT_RETRIES : Nat := 10

/-- The unbounded outer round loop of lines 278-308, run with explicit fuel
(number of rounds the model is allowed to execute): each round activates the
interface, issues the connect request, runs the 10-poll inner loop, and on
failure deactivates the interface and starts over.  `env r i` is the driver
answer at poll `i` of round `r`; the result is the action trace and the round
at which the loop exited, `none` when the given rounds were exhausted without
`network_ready` becoming true. -/
def roundsLoop (env : Nat → Nat → Bool × Nat) : Nat → Nat → List WEv × Option Nat
  | _, 0 => ([], none)
  | r, fuel + 1 =>
    let p := pollLoop (env r) 0 DEFAULT_CONNECT_RETRIES
    match p.2 with
    | some _ => ([WEv.activate, WEv.connectCall] ++ p.1, some r)
    | none =>
      let rest := roundsLoop env (r + 1) fuel
      ([WEv.activate, WEv.connectCall] ++ p.1 ++ [WEv.deactivate] ++ rest.1, rest.2)

/-- `connect_using_DHCP` (lines 263-314), starting at round 0. -/
def connect_using_DHCP (env : Nat → Nat → Bool × Nat) (fuel : Nat) :
    List WEv × Option Nat :=
  roundsLoop env 0 fuel

/-! ## Hostname templating (lines 377-390) -/

/-- Python `str.replace` with a single-character needle, over `List Char`. -/
def pyReplaceChar (needle : Char) (repl : List Char) : List Char → List Char
  | [] => []
  | c :: rest =>
    if c = needle then repl ++ pyReplaceChar needle repl rest
    else c :: pyReplaceChar needle repl rest

/-- Python `s.split(sep)[-1]`: the suffix after the last separator. -/
def lastSegment (sep : Char) (s : List Char) : List Char :=
  s.foldl (fun acc c => if c = sep then [] else acc ++ [c]) []

/-- Lines 380-388: if the template contains `#`, every `#` is replaced with
the last dot-delimited octet of the interface's IPv4 address; otherwise the
template is used unchanged. -/
def applyHostname (hn : List Char) (ip : List Char) : List Char :=
  if '#' ∈ hn then pyReplaceChar '#' (lastSegment '.' ip) hn else hn

/-! ## Calendar conversion and the RTC

`boot.py` moves between Unix-epoch seconds and calendar tuples through
`time.gmtime` / `time.time` and the `machine.RTC` datetime register.  These
are external to the repository; modelled from the spec: proleptic-Gregorian
UTC breakdown of Unix-epoch seconds (spec sections 3 and 4.3), implemented
as explicit year/month descent so that it evaluates. -/

/-- Gregorian leap-year rule. -/
def isLeapYear (y : Nat) : Bool := (y % 4 == 0 && y % 100 != 0) || y % 400 == 0

/-- Days in a Gregorian year. -/
def daysInYear (y : Nat) : Nat := if isLeapYear y then 366 else 365

/-- Days in month `m` (1-12) of year `y`. -/
def daysInMonth (y m : Nat) : Nat :=
  if m = 1 then 31
  else if m = 2 then (if isLeapYear y then 29 else 28)
  else if m = 3 then 31
  else if m = 4 then 30
  else if m = 5 then 31
  else if m = 6 then 30
  else if m = 7 then 31
  else if m = 8 then 31
  else if m = 9 then 30
  else if m = 10 then 31
  else if m = 11 then 30
  else 31

/-- Fuelled year descent: starting from year `y`, consume whole years from
the day count `z` while it covers them.  With fuel exceeding `z` the fuel
never runs out (each consumed year removes at least 365 days). -/
def yearSplitF : Nat → Nat → Nat → Nat × Nat
  | 0, y, z => (y, z)
  | fuel + 1, y, z =>
    if daysInYear y ≤ z then yearSplitF fuel (y + 1) (z - daysInYear y)
    else (y, z)

/-- Split a count of days since 1970-01-01 into (year, day-of-year). -/
def yearSplit (z : Nat) : Nat × Nat := yearSplitF (z + 1) 1970 z

/-- Month descent with fuel (at most 11 steps): split a day-of-year into
(month, zero-based day-of-month). -/
def monthSplit (y : Nat) : Nat → Nat → Nat → Nat × Nat
  | 0, m, r => (m, r)
  | fuel + 1, m, r =>
    if daysInMonth y m ≤ r then monthSplit y fuel (m + 1) (r - daysInMonth y m)
    else (m, r)

/-- Days from the start of year `y` to the start of month `m` of `y`. -/
def monthStartDays (y : Nat) : Nat → Nat
  | 0 => 0
  | 1 => 0
  | m + 1 => monthStartDays y m + daysInMonth y m

/-- Days from 1970-01-01 to the start of year `1970 + k`. -/
def yearStartAux : Nat → Nat
  | 0 => 0
  | k + 1 => yearStartAux k + daysInYear (1970 + k)

/-- Days from 1970-01-01 to the start of year `y` (0 for years before). -/
def yearStartDays (y : Nat) : Nat := yearStartAux (y - 1970)

/-- A calendar value as written to the RTC datetime register on lines 412 and
441 (weekday and sub-second slots are passed as zero and not modelled). -/
structure Cal where
  year : Nat
  month : Nat
  day : Nat
  hour : Nat
  minute : Nat
  second : Nat
deriving DecidableEq

/-- Modelled from the spec: `time.gmtime` — proleptic-Gregorian UTC breakdown
of nonnegative Unix-epoch seconds (the `time` module is external to the
repository). -/
def gmtime (t : Nat) : Cal :=
  let ys := yearSplit (t / 86400)
  let ms := monthSplit ys.1 11 1 ys.2
  { year := ys.1, month := ms.1, day := ms.2 + 1,
    hour := t % 86400 / 3600, minute := t % 86400 % 3600 / 60,
    second := t % 60 }

/-- Modelled from the spec: the Unix-epoch seconds that `time.time` reports
after the calendar value `c` has been written to the RTC. -/
def timeFromCal (c : Cal) : Nat :=
  (yearStartDays c.year + monthStartDays c.year c.month + (c.day - 1)) * 86400 +
    c.hour * 3600 + c.minute * 60 + c.second

/-- The `utc_time_offset` adjustment of lines 429-448, acting on the latched
clock: read `time.time()`, add `offset * 60` seconds, break down with
`time.gmtime` and rewrite the RTC.  `none` models the uncaught exception
`time.gmtime` raises on a negative argument. -/
def utcOffsetShift (clock : Nat) (offMin : Int) : Option Nat :=
  let localTime : Int := (clock : Int) + offMin * 60
  if localTime < 0 then none
  else some (timeFromCal (gmtime localTime.toNat))

/-! ## The top-level boot sequence (MAIN, lines 316-537) -/

/-- `MAXIMUM_SYSTEM_CLOCK_FREQ` (line 158). -/
def MAXIMUM_SYSTEM_CLOCK_FREQ : Nat := 133000000

/-- Observable actions of the top-level script, in program order. -/
inductive Ev where
  | reportInvalidBoot
  | flashLed (n : Nat)
  | sleepSec (n : Nat)
  | welcome
  | connectWifi
  | hostSet (h : List Char)
  | reportNotPicoW
  | reportNoCreds
  | flashTimeObtained
  | rtcWrite (t : Nat)
  | reportNoUtc
  | reportNoLink
  | report
  | freqAttempt (f : Nat)
  | freqWarn (f : Nat)
  | freqSet (f : Nat)
  | done
deriving DecidableEq

/-- The environment a boot runs in: presence of the `/DEBUG` file, the
decoded `/boot.json` (or `none`), whether the image supports WiFi, the
outcome of the `is_a_pico_w` scan probe, the assigned IPv4 address text, the
outcome of the NTP fetch (`none` = every server failed, `RuntimeError`
raised), and the Unix seconds latched in the RTC before boot. -/
structure BootEnv where
  debugFile : Bool
  cfg : Option BootInfo
  wifiSupported : Bool
  picoW : Bool
  ip : List Char
  fetch : Option Int
  rtc0 : Nat

/-- Result of a boot: the action trace, the final latched clock, and whether
an uncaught exception terminated the script before its end. -/
structure BootOut where
  trace : List Ev
  clock : Nat
  aborted : Bool
deriving DecidableEq

/-- Line 373: `'ssid' in boot_info and 'key' in boot_info`. -/
def credsPresent (cfg : Option BootInfo) : Bool :=
  match cfg with
  | some m => m.ssid.isSome && m.key.isSome
  | none => false

/-- Lines 373-395: if both credentials are present and the scan probe said
this is a Pico W, connect (blocking until success) and then apply the
hostname template; otherwise print the corresponding report. -/
def linkSection (cfg : Option BootInfo) (picoW : Bool) (ip : List Char) : List Ev :=
  if credsPresent cfg then
    if picoW then
      Ev.connectWifi ::
        (match cfg with
         | some m =>
           match m.hostname with
           | some hn => [Ev.hostSet (applyHostname hn ip)]
           | none => []
         | none => [])
    else [Ev.reportNotPicoW]
  else [Ev.reportNoCreds]

/-- The RTC-setting step, lines 400-424.  On a fetch failure the `except`
clause prints its report, but then the `finally` clause executes
`del(utc_time, year, ...)` on names that were never bound, raising an
uncaught `NameError` that terminates the script (third component `true`).
The same happens when `time.gmtime` rejects a negative timestamp: the
`except` clause reports, and the `finally` `del` finds `year` unbound. -/
def rtcStepRun (fl : BootFlags) (connected : Bool) (fetch : Option Int)
    (clock : Nat) : List Ev × Nat × Bool :=
  if fl.set_rtc then
    if connected then
      match fetch with
      | none => ([Ev.reportNoUtc], clock, true)
      | some t =>
        let flashEvs := if fl.flash_led then [Ev.flashTimeObtained] else []
        if t < 0 then (flashEvs ++ [Ev.reportNoUtc], clock, true)
        else
          let c := timeFromCal (gmtime t.toNat)
          (flashEvs ++ [Ev.rtcWrite c], c, false)
    else ([Ev.reportNoLink], clock, false)
  else ([], clock, false)

/-- The `utc_time_offset` step, lines 429-448 (runs whenever the raw mapping
holds the key, regardless of earlier steps).  Third component `true` models
the uncaught exception on a negative shifted time. -/
def offsetRun (cfg : Option BootInfo) (clock : Nat) : List Ev × Nat × Bool :=
  match cfg with
  | some m =>
    match m.utc_time_offset with
    | some off =>
      match utcOffsetShift clock off with
      | some c => ([Ev.rtcWrite c], c, false)
      | none => ([], clock, true)
    | none => ([], clock, false)
  | none => ([], clock, false)

/-- The clock-frequency step, lines 493-503: when the raw mapping holds
`freq`, announce the attempt (unless silent), warn when the request exceeds
`MAXIMUM_SYSTEM_CLOCK_FREQ`, and call `machine.freq` in every case. -/
def freqRun (cfg : Option BootInfo) (silent : Bool) : List Ev :=
  match cfg with
  | some m =>
    match m.freq with
    | some f =>
      (if silent then [] else [Ev.freqAttempt f]) ++
        (if MAXIMUM_SYSTEM_CLOCK_FREQ < f then [Ev.freqWarn f] else []) ++
        [Ev.freqSet f]
    | none => []
  | none => []

/-- The top-level script, lines 316-537: load `/boot.json`, start-delay,
welcome banner, WiFi section (probe, connect, hostname), RTC-setting step,
`utc_time_offset` step, details report, frequency step, cleanup, done.  A
step that raises an uncaught exception stops the script at that point. -/
def runBoot (e : BootEnv) : BootOut :=
  let lp := loadBootInfo e.debugFile e.cfg
  let fl := lp.1
  let cfgEvs :=
    if lp.2 then (if fl.flash_led then [Ev.flashLed 1] else [])
    else [Ev.reportInvalidBoot]
  let pre := cfgEvs ++ [Ev.sleepSec fl.start_delay] ++
    (if fl.silent then [] else [Ev.welcome])
  let wifiEvs := if e.wifiSupported then linkSection e.cfg e.picoW e.ip else []
  let connected := e.wifiSupported && e.picoW && credsPresent e.cfg
  let rtcR :=
    if e.wifiSupported then rtcStepRun fl connected e.fetch e.rtc0
    else ([], e.rtc0, false)
  let trace1 := pre ++ wifiEvs ++ rtcR.1
  if rtcR.2.2 then { trace := trace1, clock := rtcR.2.1, aborted := true }
  else
    let offR := offsetRun e.cfg rtcR.2.1
    let trace2 := trace1 ++ offR.1
    if offR.2.2 then { trace := trace2, clock := offR.2.1, aborted := true }
    else
      let repEvs := if fl.silent then [] else [Ev.report]
      let frEvs := freqRun e.cfg fl.silent
      let endEvs := (if fl.flash_led then [Ev.flashLed 5] else []) ++ [Ev.done]
      { trace := trace2 ++ repEvs ++ frEvs ++ endEvs, clock := offR.2.1,
        aborted := false }

/-! ## Calendar round trip -/

theorem daysInYear_pos (y : Nat) : 365 ≤ daysInYear y := by
  unfold daysInYear
  split <;> omega

theorem yearStartDays_succ (y : Nat) (h : 1970 ≤ y) :
    yearStartDays (y + 1) = yearStartDays y + daysInYear y := by
  obtain ⟨k, rfl⟩ : ∃ k, y = 1970 + k := ⟨y - 1970, by omega⟩
  have h1 : 1970 + k + 1 - 1970 = k + 1 := by omega
  have h2 : 1970 + k - 1970 = k := by omega
  rw [yearStartDays, yearStartDays, h1, h2]
  rfl

theorem yearSplitF_spec (fuel : Nat) : ∀ y z, z < fuel → 1970 ≤ y →
    yearStartDays (yearSplitF fuel y z).1 + (yearSplitF fuel y z).2 =
      yearStartDays y + z ∧
    (yearSplitF fuel y z).2 < daysInYear (yearSplitF fuel y z).1 ∧
    1970 ≤ (yearSplitF fuel y z).1 := by
  induction fuel with
  | zero => intro y z h _; omega
  | succ fuel ih =>
    intro y z h hy
    simp only [yearSplitF]
    split
    · next hle =>
      have hp := daysInYear_pos y
      have hrec := ih (y + 1) (z - daysInYear y) (by omega) (by omega)
      rw [yearStartDays_succ y hy] at hrec
      exact ⟨by omega, hrec.2.1, hrec.2.2⟩
    · next hlt => exact ⟨rfl, (by omega : z < daysInYear y), hy⟩

theorem yearSplit_spec (z : Nat) :
    yearStartDays (yearSplit z).1 + (yearSplit z).2 = z ∧
    (yearSplit z).2 < daysInYear (yearSplit z).1 ∧
    1970 ≤ (yearSplit z).1 := by
  have h := yearSplitF_spec (z + 1) 1970 z (by omega) (by omega)
  have h0 : yearStartDays 1970 = 0 := rfl
  rw [h0] at h
  unfold yearSplit
  exact ⟨by omega, h.2.1, h.2.2⟩

theorem monthStartDays_succ (y m : Nat) (h : 1 ≤ m) :
    monthStartDays y (m + 1) = monthStartDays y m + daysInMonth y m := by
  cases m with
  | zero => exact absurd h (by decide)
  | succ k => rfl

theorem monthStartDays_twelve (y : Nat) : monthStartDays y 12 + 31 = daysInYear y := by
  have e : monthStartDays y 12 =
      0 + 31 + (if isLeapYear y then 29 else 28) + 31 + 30 + 31 + 30 + 31 + 31 +
        30 + 31 + 30 := rfl
  cases h : isLeapYear y <;> simp [e, daysInYear, h]

theorem monthSplit_spec (y : Nat) : ∀ fuel m r, 1 ≤ m → m + fuel = 12 →
    monthStartDays y m + r < daysInYear y →
    monthStartDays y (monthSplit y fuel m r).1 + (monthSplit y fuel m r).2 =
      monthStartDays y m + r ∧
    (monthSplit y fuel m r).2 < daysInMonth y (monthSplit y fuel m r).1 ∧
    1 ≤ (monthSplit y fuel m r).1 := by
  intro fuel
  induction fuel with
  | zero =>
    intro m r h1 h2 h3
    have hm : m = 12 := by omega
    subst hm
    have h12 := monthStartDays_twelve y
    have hd : daysInMonth y 12 = 31 := rfl
    exact ⟨rfl, (by omega : r < daysInMonth y 12), (by omega : (1 : Nat) ≤ 12)⟩
  | succ fuel ih =>
    intro m r h1 h2 h3
    simp only [monthSplit]
    split
    · next hle =>
      have hsucc := monthStartDays_succ y m h1
      have hrec := ih (m + 1) (r - daysInMonth y m) (by omega) (by omega) (by omega)
      exact ⟨by omega, hrec.2.1, hrec.2.2⟩
    · next hgt => exact ⟨rfl, (by omega : r < daysInMonth y m), h1⟩

theorem timeFromCal_gmtime (t : Nat) : timeFromCal (gmtime t) = t := by
  unfold gmtime timeFromCal
  dsimp only
  have hy := yearSplit_spec (t / 86400)
  have h1 : monthStartDays (yearSplit (t / 86400)).1 1 = 0 := rfl
  have hm := monthSplit_spec (yearSplit (t / 86400)).1 11 1 (yearSplit (t / 86400)).2
    (by omega) (by omega) (by omega)
  omega

/-- C7 helper: a single application of the offset step shifts the latched
clock by exactly `offMin * 60` seconds. -/
theorem utc_offset_step_single (t : Nat) (o : Int) (h1 : 0 ≤ (t : Int) + o * 60) :
    utcOffsetShift t o = some ((t : Int) + o * 60).toNat := by
  unfold utcOffsetShift
  rw [if_neg (by omega), timeFromCal_gmtime]

/-- C7: the `utc_time_offset` step reads the current RTC-derived Unix time,
adds `offset_minutes * 60` seconds, and rewrites the RTC; applying it twice
with the same offset shifts the stored clock by exactly twice the
single-application delta. -/
theorem utc_offset_step_compounds (t : Nat) (o : Int)
    (h1 : 0 ≤ (t : Int) + o * 60) (h2 : 0 ≤ (t : Int) + o * 60 + o * 60) :
    ∃ t1 t2, utcOffsetShift t o = some t1 ∧ utcOffsetShift t1 o = some t2 ∧
      (t1 : Int) = (t : Int) + o * 60 ∧
      (t2 : Int) = (t : Int) + 2 * (o * 60) := by
  refine ⟨((t : Int) + o * 60).toNat, ((((t : Int) + o * 60).toNat : Int) + o * 60).toNat,
    utc_offset_step_single t o h1, utc_offset_step_single _ o (by omega), by omega, by omega⟩

/-- C7 witness: starting from Unix time 1700000000 with offset −300 minutes,
each application shifts by −18000 seconds and the two shifts compound. -/
theorem utc_offset_step_compounds_witness :
    (0 : Int) ≤ ((1700000000 : Nat) : Int) + (-300 : Int) * 60 ∧
    ∃ t1 t2, utcOffsetShift 1700000000 (-300) = some t1 ∧
      utcOffsetShift t1 (-300) = some t2 ∧
      (t1 : Int) = ((1700000000 : Nat) : Int) + (-300 : Int) * 60 ∧
      (t2 : Int) = ((1700000000 : Nat) : Int) + 2 * ((-300 : Int) * 60) :=
  ⟨by decide, utc_offset_step_compounds 1700000000 (-300) (by decide) (by decide)⟩

/-! ## NTP reply decoding (C3) -/

/-- C3: a received NTP reply of exactly 48 bytes decodes to the 32-bit
big-endian word at word index 10 (byte offset 40) minus 2208988800, exactly;
a reply whose length is not 48 never yields a timestamp. -/
theorem ntp_reply_decode_exact (resp : List Nat) :
    (resp.length = 48 →
      decodeNtpResponse resp = some ((word32At resp 10 : Int) - 2208988800)) ∧
    (resp.length ≠ 48 → decodeNtpResponse resp = none) := by
  constructor
  · intro h
    unfold decodeNtpResponse
    rw [if_neg (by omega), if_pos h]
    rfl
  · intro h
    simp [decodeNtpResponse, h]

/-- A 48-byte reply fixture whose transmit-timestamp word is
`0xe4b86b1e = 3837291294`; the decoded Unix time is
`3837291294 - 2208988800 = 1628302494`. -/
def ntpFixture : List Nat := List.replicate 40 0 ++ [228, 184, 107, 30, 0, 0, 0, 0]

/-- C3 witness: the fixture decodes exactly; a 1-byte reply is rejected. -/
theorem ntp_reply_decode_exact_witness :
    decodeNtpResponse ntpFixture = some 1628302494 ∧
    decodeNtpResponse [0] = none := by
  constructor
  · rw [(ntp_reply_decode_exact ntpFixture).1 (by decide)]
    decide
  · exact (ntp_reply_decode_exact [0]).2 (by decide)

/-! ## NTP server iteration (C4) -/

/-- C4: the server loop walks the list in its given order, swallowing each
per-server failure; the first successful decode returns immediately and no
later server is contacted; if every server fails the fetch fails. -/
theorem fetch_utc_fallback_order (env : String → Option (List Nat)) :
    (∀ pre s post t, (∀ x ∈ pre, attemptNtpServer (env x) = none) →
      attemptNtpServer (env s) = some t →
      fetchUtcList env (pre ++ s :: post) = (Except.ok t, pre ++ [s])) ∧
    (∀ servers, (∀ x ∈ servers, attemptNtpServer (env x) = none) →
      fetchUtcList env servers = (Except.error (), servers)) := by
  constructor
  · intro pre
    induction pre with
    | nil =>
      intro s post t _ hs
      simp [fetchUtcList, hs]
    | cons x xs ih =>
      intro s post t hpre hs
      have hx : attemptNtpServer (env x) = none := hpre x (by simp)
      have ihh := ih s post t (fun z hz => hpre z (by simp [hz])) hs
      simp only [List.cons_append, fetchUtcList, hx, List.append_eq]
      rw [ihh]
  · intro servers
    induction servers with
    | nil => intro _; rfl
    | cons x xs ih =>
      intro h
      have hx := h x (by simp)
      simp only [fetchUtcList, hx]
      rw [ih (fun z hz => h z (by simp [hz]))]

/-- An environment in which only the second built-in server answers, with the
48-byte fixture. -/
def envPoolResponds : String → Option (List Nat) :=
  fun s => if s = "pool.ntp.org" then some ntpFixture else none

/-- C4 witness: with the first server failing and the second answering, the
fetch returns the second server's time and contacts no later server; with
every server failing, the fetch fails after contacting all of them. -/
theorem fetch_utc_fallback_order_witness :
    fetchUtcList envPoolResponds TIME_SERVERS =
      (Except.ok 1628302494, ["time.nist.gov", "pool.ntp.org"]) ∧
    fetchUtcList (fun _ => none) TIME_SERVERS = (Except.error (), TIME_SERVERS) := by
  constructor
  · exact (fetch_utc_fallback_order envPoolResponds).1 ["time.nist.gov"]
      "pool.ntp.org" ["time.google.com", "time.windows.com"] 1628302494
      (by decide) (by decide)
  · exact (fetch_utc_fallback_order (fun _ => none)).2 TIME_SERVERS
      (fun x _ => rfl)

/-! ## Hostname templating (C6) -/

theorem pyReplaceChar_append (n : Char) (r a b : List Char) :
    pyReplaceChar n r (a ++ b) = pyReplaceChar n r a ++ pyReplaceChar n r b := by
  induction a with
  | nil => rfl
  | cons c cs ih =>
    simp only [List.cons_append, pyReplaceChar, List.append_eq]
    split
    · rw [ih, List.append_assoc]
    · rw [ih, List.cons_append]

theorem pyReplaceChar_of_not_mem (n : Char) (r : List Char) (a : List Char)
    (h : n ∉ a) : pyReplaceChar n r a = a := by
  induction a with
  | nil => rfl
  | cons c cs ih =>
    have h1 : ¬ c = n := fun e => h (by simp [e])
    simp only [pyReplaceChar]
    rw [if_neg h1, ih (fun hm => h (List.mem_cons_of_mem _ hm))]

/-- C6: a hostname template containing a single `#` has it replaced by the
last dot-delimited segment of the assigned address; a template with no `#`
is set unchanged. -/
theorem hostname_template_replacement (hn ip a b : List Char) :
    ('#' ∉ hn → applyHostname hn ip = hn) ∧
    (hn = a ++ '#' :: b → '#' ∉ a → '#' ∉ b →
      applyHostname hn ip = a ++ lastSegment '.' ip ++ b) := by
  constructor
  · intro h
    unfold applyHostname
    rw [if_neg h]
  · rintro rfl ha hb
    unfold applyHostname
    rw [if_pos (by simp), pyReplaceChar_append, pyReplaceChar_of_not_mem _ _ _ ha]
    simp [pyReplaceChar, pyReplaceChar_of_not_mem _ _ _ hb]

/-- C6 witness: template `pico-#` with address `192.168.1.42` yields
`pico-42`; a template with no `#` is unchanged. -/
theorem hostname_template_replacement_witness :
    applyHostname "pico-#".toList "192.168.1.42".toList = "pico-42".toList ∧
    applyHostname "mypico".toList "192.168.1.42".toList = "mypico".toList := by
  constructor
  · rw [(hostname_template_replacement "pico-#".toList "192.168.1.42".toList
      "pico-".toList []).2 (by decide) (by decide) (by decide)]
    decide
  · exact (hostname_template_replacement "mypico".toList "192.168.1.42".toList
      [] []).1 (by decide)

/-! ## Link bring-up liveness (C5) -/

/-- Whether a trace action is a status poll. -/
def isPoll : WEv → Bool
  | WEv.statusPoll _ => true
  | _ => false

/-- Whether a trace action is a 1-second sleep. -/
def isSleep : WEv → Bool
  | WEv.sleep1 => true
  | _ => false

theorem pollLoop_none (f : Nat → Bool × Nat)
    (h : ∀ j, ¬((f j).1 = true ∧ (f j).2 = 3)) :
    ∀ fuel i, (pollLoop f i fuel).2 = none := by
  intro fuel
  induction fuel with
  | zero => intro i; rfl
  | succ fuel ih =>
    intro i
    simp only [pollLoop]
    rw [if_neg (h i)]
    exact ih (i + 1)

theorem roundsLoop_none (env : Nat → Nat → Bool × Nat)
    (h : ∀ r i, ¬((env r i).1 = true ∧ (env r i).2 = 3)) :
    ∀ fuel r, (roundsLoop env r fuel).2 = none := by
  intro fuel
  induction fuel with
  | zero => intro r; rfl
  | succ fuel ih =>
    intro r
    simp only [roundsLoop]
    rw [pollLoop_none (env r) (h r)]
    exact ih (r + 1)

theorem pollLoop_some_of_exists (f : Nat → Bool × Nat) :
    ∀ fuel i, (∃ j, i ≤ j ∧ j < i + fuel ∧ (f j).1 = true ∧ (f j).2 = 3) →
      ((pollLoop f i fuel).2).isSome = true := by
  intro fuel
  induction fuel with
  | zero =>
    intro i h
    exact absurd h (by omega)
  | succ fuel ih =>
    intro i h
    simp only [pollLoop]
    split
    · rfl
    · next hcond =>
      refine ih (i + 1) ?_
      obtain ⟨j, hj1, hj2, hj3⟩ := h
      have : ¬ j = i := fun e => hcond (e ▸ hj3)
      exact ⟨j, by omega, by omega, hj3⟩

theorem roundsLoop_some (env : Nat → Nat → Bool × Nat) :
    ∀ d r, ((pollLoop (env (r + d)) 0 DEFAULT_CONNECT_RETRIES).2).isSome = true →
      ((roundsLoop env r (d + 1)).2).isSome = true := by
  intro d
  induction d with
  | zero =>
    intro r h
    simp only [roundsLoop]
    cases hp : (pollLoop (env r) 0 DEFAULT_CONNECT_RETRIES).2 with
    | some j => rfl
    | none => rw [Nat.add_zero] at h; rw [hp] at h; exact absurd h (by decide)
  | succ d ih =>
    intro r h
    simp only [roundsLoop]
    cases hp : (pollLoop (env r) 0 DEFAULT_CONNECT_RETRIES).2 with
    | some j => rfl
    | none =>
      have heq : r + (d + 1) = (r + 1) + d := by omega
      rw [heq] at h
      exact ih (r + 1) h

theorem pollLoop_countP_le (f : Nat → Bool × Nat) :
    ∀ fuel i, ((pollLoop f i fuel).1.countP isPoll) ≤ fuel := by
  intro fuel
  induction fuel with
  | zero => intro i; simp [pollLoop]
  | succ fuel ih =>
    intro i
    simp only [pollLoop]
    split
    · split <;> simp [List.countP, List.countP.go, isPoll]
    · have := ih (i + 1)
      split <;> simp [List.countP_append, List.countP_cons, isPoll] <;> omega

theorem pollLoop_fail_counts (f : Nat → Bool × Nat) :
    ∀ fuel i, (pollLoop f i fuel).2 = none →
      (pollLoop f i fuel).1.countP isPoll = fuel ∧
      (pollLoop f i fuel).1.countP isSleep = (if i = 0 then fuel - 1 else fuel) := by
  intro fuel
  induction fuel with
  | zero => intro i _; simp [pollLoop]
  | succ fuel ih =>
    intro i h
    by_cases hcond : (f i).1 = true ∧ (f i).2 = 3
    · simp only [pollLoop, if_pos hcond] at h
      exact absurd h (by simp)
    · simp only [pollLoop, if_neg hcond] at h ⊢
      have hrec := ih (i + 1) h
      have h2 : (pollLoop f (i + 1) fuel).1.countP isSleep = fuel := by
        rw [hrec.2]
        simp
      rcases Nat.eq_zero_or_pos i with hi | hi
      · subst hi
        constructor
        · simp [List.countP_append, List.countP_cons, isPoll, hrec.1]
        · simp [List.countP_append, List.countP_cons, isSleep, h2]
      · constructor
        · simp [List.countP_append, List.countP_cons, isPoll, hrec.1, hi]
        · rw [if_neg (show ¬ i = 0 by omega)]
          simp [List.countP_append, List.countP_cons, isSleep, h2, hi]

/-- C5: `connect_using_DHCP` runs an unbounded outer loop of rounds, each
round doing at most 10 status polls with 1-second spacing (10 polls, 9
sleeps in a full failed round) and deactivating the interface between
rounds; when the driver never reports `isconnected` with status 3 it never
produces a result however many rounds run, and once status 3 is observed at
some poll of some round it returns. -/
theorem connect_using_DHCP_liveness (env : Nat → Nat → Bool × Nat) :
    ((∀ r i, ¬((env r i).1 = true ∧ (env r i).2 = 3)) →
      ∀ fuel, (connect_using_DHCP env fuel).2 = none) ∧
    (∀ r i, i < DEFAULT_CONNECT_RETRIES → (env r i).1 = true → (env r i).2 = 3 →
      ∃ fuel res, (connect_using_DHCP env fuel).2 = some res) ∧
    (∀ r, ((pollLoop (env r) 0 DEFAULT_CONNECT_RETRIES).1.countP isPoll) ≤
      DEFAULT_CONNECT_RETRIES) ∧
    (∀ r, (pollLoop (env r) 0 DEFAULT_CONNECT_RETRIES).2 = none →
      (pollLoop (env r) 0 DEFAULT_CONNECT_RETRIES).1.countP isPoll = 10 ∧
      (pollLoop (env r) 0 DEFAULT_CONNECT_RETRIES).1.countP isSleep = 9) ∧
    (∀ r fuel, (pollLoop (env r) 0 DEFAULT_CONNECT_RETRIES).2 = none →
      (roundsLoop env r (fuel + 1)).1 =
        [WEv.activate, WEv.connectCall] ++
          (pollLoop (env r) 0 DEFAULT_CONNECT_RETRIES).1 ++
          [WEv.deactivate] ++ (roundsLoop env (r + 1) fuel).1) := by
  refine ⟨?_, ?_, ?_, ?_, ?_⟩
  · intro h fuel
    exact roundsLoop_none env h fuel 0
  · intro r i h1 h2 h3
    have hp := pollLoop_some_of_exists (env r) DEFAULT_CONNECT_RETRIES 0
      ⟨i, by omega, by omega, h2, h3⟩
    have hq := roundsLoop_some env r 0
    rw [Nat.zero_add] at hq
    obtain ⟨res, hres⟩ := Option.isSome_iff_exists.mp (hq hp)
    exact ⟨r + 1, res, hres⟩
  · intro r
    exact pollLoop_countP_le (env r) DEFAULT_CONNECT_RETRIES 0
  · intro r h
    have hc := pollLoop_fail_counts (env r) DEFAULT_CONNECT_RETRIES 0 h
    exact ⟨hc.1, by simpa using hc.2⟩
  · intro r fuel h
    simp only [roundsLoop]
    rw [h]

/-- A driver that never reports connected. -/
def envNeverUp : Nat → Nat → Bool × Nat := fun _ _ => (false, 0)

/-- A driver that reports connected with status 3 immediately. -/
def envAlwaysUp : Nat → Nat → Bool × Nat := fun _ _ => (true, 3)

/-- C5 witness: instantiations of the liveness theorem at concrete drivers. -/
theorem connect_using_DHCP_liveness_witness :
    (connect_using_DHCP envNeverUp 5).2 = none ∧
    (∃ fuel res, (connect_using_DHCP envAlwaysUp fuel).2 = some res) ∧
    ((pollLoop (envNeverUp 0) 0 DEFAULT_CONNECT_RETRIES).1.countP isPoll ≤
      DEFAULT_CONNECT_RETRIES) ∧
    ((pollLoop (envNeverUp 0) 0 DEFAULT_CONNECT_RETRIES).1.countP isPoll = 10 ∧
      (pollLoop (envNeverUp 0) 0 DEFAULT_CONNECT_RETRIES).1.countP isSleep = 9) ∧
    (roundsLoop envNeverUp 0 1).1 =
      [WEv.activate, WEv.connectCall] ++
        (pollLoop (envNeverUp 0) 0 DEFAULT_CONNECT_RETRIES).1 ++
        [WEv.deactivate] ++ (roundsLoop envNeverUp 1 0).1 := by
  refine ⟨?_, ?_, ?_, ?_, ?_⟩
  · exact (connect_using_DHCP_liveness envNeverUp).1
      (by intro r i; simp [envNeverUp]) 5
  · exact (connect_using_DHCP_liveness envAlwaysUp).2.1 0 0 (by decide) rfl rfl
  · exact (connect_using_DHCP_liveness envNeverUp).2.2.1 0
  · exact (connect_using_DHCP_liveness envNeverUp).2.2.2.1 0 (by decide)
  · exact (connect_using_DHCP_liveness envNeverUp).2.2.2.2 0 0 (by decide)

/-! ## Configuration handling (C2, C9, C10) -/

/-- C2: on line 331 the value applied to `SET_RTC` is read from the key
`"set_rtp"`, not `"set_rtc"`.  With `set_rtc: false` in the file (and no
`set_rtp` key) the lookup raises `KeyError`, the file is reported invalid,
and the effective flag stays at its default `true` instead of the stored
`false`; with both keys present the effective flag is the `set_rtp` value,
again ignoring the stored `set_rtc` value. -/
theorem set_rtc_reads_set_rtp_key :
    (loadBootInfo false (some { set_rtc := some false })).1.set_rtc = true ∧
    (loadBootInfo false (some { set_rtc := some false })).2 = false ∧
    (loadBootInfo false
      (some { set_rtc := some false, set_rtp := some true })).1.set_rtc = true ∧
    (loadBootInfo false
      (some { set_rtc := some false, set_rtp := some true })).2 = true := by
  decide

/-- C9 counterexample: with the `/DEBUG` file present (initial debug state
true) and a configuration that sets only `silent: true`, the boot ends with
the effective debug flag true and the effective silent flag true — the
claimed invariant fails for this initial debug state. -/
theorem debug_without_silent_false_cex :
    (loadBootInfo true (some { silent := some true })).1.debug = true ∧
    (loadBootInfo true (some { silent := some true })).1.silent = true := by
  decide

/-- C9 (amended): when the initial debug state is false (no `/DEBUG` file),
an effective debug flag of true forces the effective silent flag to false,
for every configuration mapping. -/
theorem debug_key_forces_silent_false (cfg : Option BootInfo)
    (h : (loadBootInfo false cfg).1.debug = true) :
    (loadBootInfo false cfg).1.silent = false := by
  cases cfg with
  | none => simp [loadBootInfo, defaultFlags] at h
  | some m =>
    cases hfl : m.flash_led <;> cases hsc : m.set_rtc <;> cases hsp : m.set_rtp <;>
      cases hsl : m.silent <;> cases hsd : m.start_delay_seconds <;>
      cases hdbg : m.debug <;>
      simp_all [loadBootInfo, processBootInfo, processAfterRtc, defaultFlags]

/-- C9 witness: a configuration with `debug: true` and `silent: true` ends
with debug true and silent false. -/
theorem debug_key_forces_silent_false_witness :
    (loadBootInfo false
      (some { debug := some true, silent := some true })).1.debug = true ∧
    (loadBootInfo false
      (some { debug := some true, silent := some true })).1.silent = false :=
  ⟨by decide, debug_key_forces_silent_false
    (some { debug := some true, silent := some true }) (by decide)⟩

/-- C10: configuration application is not atomic.  For every mapping holding
`set_rtc` but not `set_rtp`, processing stops at the `set_rtc` step: the
`flash_led` value has already taken effect, while `silent`,
`start_delay_seconds` and `debug` keep their defaults even when present, the
`set_rtc` flag keeps its default `true`, and the file is reported invalid. -/
theorem config_load_not_atomic (dbg : Bool) (m : BootInfo)
    (h1 : m.set_rtc.isSome = true) (h2 : m.set_rtp = none) :
    loadBootInfo dbg (some m) =
      ({ flash_led := m.flash_led.getD false, set_rtc := true, silent := false,
         start_delay := 0, debug := dbg }, false) := by
  cases hsc : m.set_rtc with
  | none => simp [hsc] at h1
  | some v =>
    cases hfl : m.flash_led <;>
      simp [loadBootInfo, processBootInfo, defaultFlags, hsc, h2, hfl]

/-- C10 witness: a mapping with every key present except `set_rtp`; only
`flash_led` takes effect, and the file is reported invalid. -/
theorem config_load_not_atomic_witness :
    loadBootInfo false
      (some { flash_led := some true, set_rtc := some false,
              silent := some true, start_delay_seconds := some 7,
              debug := some true }) =
      ({ flash_led := true, set_rtc := true, silent := false, start_delay := 0,
         debug := false }, false) :=
  (config_load_not_atomic false
    { flash_led := some true, set_rtc := some false, silent := some true,
      start_delay_seconds := some 7, debug := some true }
    (by decide) rfl).trans (by decide)

/-! ## The RTC-setting step kills the boot on fetch failure (C1) -/

/-- A boot environment in which the RTC step runs and every NTP server
fails: WiFi image on a Pico W, credentials configured, link up, fetch
raising. -/
def envFetchFails : BootEnv :=
  { debugFile := false,
    cfg := some { ssid := some "net", key := some "pw" },
    wifiSupported := true, picoW := true,
    ip := "192.168.1.7".toList, fetch := none, rtc0 := 1600000000 }

/-- C1 evaluation: when the NTP fetch fails, the `except` clause prints its
report, but the `finally` clause's `del(utc_time, year, ...)` names variables
the aborted `try` never bound, raising an uncaught `NameError`: the script
terminates and the `utc_time_offset` step, the report, the frequency step
and the done signal never run — contradicting the claimed continuation. -/
theorem ntp_fetch_failure_aborts_boot :
    Ev.reportNoUtc ∈ (runBoot envFetchFails).trace ∧
    (runBoot envFetchFails).aborted = true ∧
    Ev.done ∉ (runBoot envFetchFails).trace ∧
    Ev.report ∉ (runBoot envFetchFails).trace := by
  decide

/-- C2 evaluation on the full sequence: with `set_rtc: false` stored in the
configuration, the NTP-and-RTC step still runs (the RTC is written), because
the flag lookup raised `KeyError` and left the default `true` in place. -/
def envRtcFalse : BootEnv :=
  { debugFile := false,
    cfg := some { ssid := some "net", key := some "pw", set_rtc := some false },
    wifiSupported := true, picoW := true,
    ip := "10.0.0.5".toList, fetch := some 1700000000, rtc0 := 0 }

theorem set_rtc_false_still_sets_rtc :
    Ev.rtcWrite 1700000000 ∈ (runBoot envRtcFalse).trace ∧
    Ev.reportInvalidBoot ∈ (runBoot envRtcFalse).trace := by
  decide

/-! ## The clock-frequency step (C8) -/

theorem mem_ite_list {α : Type} {c : Prop} [Decidable c] (x : α) (a b : List α) :
    x ∈ (if c then a else b) ↔ (c ∧ x ∈ a) ∨ (¬c ∧ x ∈ b) := by
  split <;> simp_all

theorem freqWarn_not_mem_linkSection (g : Nat) (cfg : Option BootInfo) (p : Bool)
    (ip : List Char) : Ev.freqWarn g ∉ linkSection cfg p ip := by
  unfold linkSection
  repeat' split
  all_goals simp

theorem freqWarn_not_mem_rtcStep (g : Nat) (fl : BootFlags) (c : Bool)
    (fetch : Option Int) (clock : Nat) :
    Ev.freqWarn g ∉ (rtcStepRun fl c fetch clock).1 := by
  unfold rtcStepRun
  dsimp only
  repeat' split
  all_goals simp

theorem freqWarn_not_mem_offsetRun (g : Nat) (cfg : Option BootInfo) (clock : Nat) :
    Ev.freqWarn g ∉ (offsetRun cfg clock).1 := by
  unfold offsetRun
  repeat' split
  all_goals simp

/-- Shape of a completed boot: everything up to the report, then the
frequency step, then only the closing flash and the done marker; no
frequency warning occurs before the frequency step. -/
theorem runBoot_trace_shape (e : BootEnv) (hab : (runBoot e).aborted = false) :
    ∃ pre,
      (runBoot e).trace =
        pre ++ freqRun e.cfg (loadBootInfo e.debugFile e.cfg).1.silent ++
          ((if (loadBootInfo e.debugFile e.cfg).1.flash_led then [Ev.flashLed 5]
            else []) ++ [Ev.done]) ∧
      ∀ g, Ev.freqWarn g ∉ pre := by
  unfold runBoot at hab ⊢
  dsimp only at hab ⊢
  by_cases h1 : (if e.wifiSupported = true then
      rtcStepRun (loadBootInfo e.debugFile e.cfg).1
        (e.wifiSupported && e.picoW && credsPresent e.cfg) e.fetch e.rtc0
    else ([], e.rtc0, false)).2.2 = true
  · rw [if_pos h1] at hab
    simp at hab
  · rw [if_neg h1] at hab ⊢
    by_cases h2 : (offsetRun e.cfg (if e.wifiSupported = true then
        rtcStepRun (loadBootInfo e.debugFile e.cfg).1
          (e.wifiSupported && e.picoW && credsPresent e.cfg) e.fetch e.rtc0
      else ([], e.rtc0, false)).2.1).2.2 = true
    · rw [if_pos h2] at hab
      simp at hab
    · rw [if_neg h2] at hab ⊢
      dsimp only
      refine ⟨_, rfl, ?_⟩
      intro g hmem
      by_cases hw : e.wifiSupported = true <;>
        simp [hw, List.mem_append, mem_ite_list, freqWarn_not_mem_linkSection,
          freqWarn_not_mem_rtcStep, freqWarn_not_mem_offsetRun] at hmem

/-- C8: when `freq` is configured, the frequency-set call is invoked for
every requested value, after the link, hostname, RTC-set, offset and report
steps: in every completed boot the trace ends with the (optional) warning,
the set call, and only the closing flash and done marker; the warning
appears exactly when the request exceeds `MAXIMUM_SYSTEM_CLOCK_FREQ`. -/
theorem freq_step_applied_last (e : BootEnv) (m : BootInfo) (f : Nat)
    (hm : e.cfg = some m) (hf : m.freq = some f)
    (hab : (runBoot e).aborted = false) :
    ∃ pre fin,
      (runBoot e).trace =
        pre ++ (if MAXIMUM_SYSTEM_CLOCK_FREQ < f then [Ev.freqWarn f] else []) ++
          Ev.freqSet f :: (fin ++ [Ev.done]) ∧
      (fin = [] ∨ fin = [Ev.flashLed 5]) ∧
      ((Ev.freqWarn f ∈ (runBoot e).trace) ↔ MAXIMUM_SYSTEM_CLOCK_FREQ < f) := by
  obtain ⟨pre, htr, hnot⟩ := runBoot_trace_shape e hab
  have hfr : freqRun e.cfg (loadBootInfo e.debugFile e.cfg).1.silent =
      (if (loadBootInfo e.debugFile e.cfg).1.silent then [] else [Ev.freqAttempt f]) ++
        (if MAXIMUM_SYSTEM_CLOCK_FREQ < f then [Ev.freqWarn f] else []) ++
        [Ev.freqSet f] := by
    rw [hm]
    simp [freqRun, hf]
  rw [hfr] at htr
  refine ⟨pre ++ (if (loadBootInfo e.debugFile e.cfg).1.silent then []
      else [Ev.freqAttempt f]),
    if (loadBootInfo e.debugFile e.cfg).1.flash_led then [Ev.flashLed 5] else [],
    ?_, ?_, ?_⟩
  · rw [htr]
    simp [List.append_assoc]
  · cases hb : (loadBootInfo e.debugFile e.cfg).1.flash_led <;> simp [hb]
  · rw [htr]
    by_cases hov : MAXIMUM_SYSTEM_CLOCK_FREQ < f
    · simp [hov, List.mem_append]
    · simp [hov, List.mem_append, mem_ite_list, hnot f]

/-- A boot environment with only a `freq: 150000000` override configured
(above the 133000000 ceiling). -/
def envFreqOnly : BootEnv :=
  { debugFile := false, cfg := some { freq := some 150000000 },
    wifiSupported := false, picoW := false, ip := [], fetch := none, rtc0 := 0 }

/-- C8 witness: a request of 150000000 Hz still reaches the set call, with
the over-limit warning emitted right before it. -/
theorem freq_step_applied_last_witness :
    (runBoot envFreqOnly).aborted = false ∧
    ∃ pre fin,
      (runBoot envFreqOnly).trace =
        pre ++ (if MAXIMUM_SYSTEM_CLOCK_FREQ < 150000000 then
            [Ev.freqWarn 150000000] else []) ++
          Ev.freqSet 150000000 :: (fin ++ [Ev.done]) ∧
      (fin = [] ∨ fin = [Ev.flashLed 5]) ∧
      ((Ev.freqWarn 150000000 ∈ (runBoot envFreqOnly).trace) ↔
        MAXIMUM_SYSTEM_CLOCK_FREQ < 150000000) :=
  ⟨by decide, freq_step_applied_last envFreqOnly { freq := some 150000000 }
    150000000 rfl rfl (by decide)⟩
